import Mathlib

/-!
Shallow embedding of the batch-orchestration and state-commitment core of a
mini ZK-EVM rollup, together with proofs checking its natural-language
specification.  The embedding follows the TypeScript sources:

* `BatchProcessor` (`src/core/batch-processor/index.ts`): transaction
  intake/validation, de-duplication by content digest, batch formation with a
  fee-priority sort, and the `processing` single-flight flag.
* `StateRootManager` (`src/core/config/index.ts`, second module): the root
  history, `verifyStateTransition`, `submitStateUpdate` and
  `submitAggregatedStateUpdates`.
* `RollupSequencer` (`src/core/config/index.ts`, third module): the
  timer-driven `processBatch` tick and `forceBatch`.
* `ProofGenerator` (`src/unnamed/part_008`): the proof result cache and the
  in-flight pending map.

External collaborators (the settlement ledger and the prover) are opaque
asynchronous calls in the sources; they enter the model as explicit
parameters (the ledger's current root, whether the ledger accepts a
submission, the prover's result).  JavaScript `Map` objects are modelled as
insertion-ordered association lists, `Set` objects as lists of keys, and
the keccak256 content digest as the injective tuple of the digested fields.
Asynchronous interleavings relevant to the claims are modelled by splitting
the affected method at its `await` point into explicit phases.
-/

set_option autoImplicit false

namespace MiniZkRollup

/-- Insertion-ordered association-list model of JavaScript `Map.set`:
an existing binding is overwritten in place, a new key is appended. -/
def mapSet {κ α : Type} [DecidableEq κ] (k : κ) (v : α) : List (κ × α) → List (κ × α)
  | [] => [(k, v)]
  | (k', v') :: rest => if k' = k then (k, v) :: rest else (k', v') :: mapSet k v rest

/-- Association-list model of JavaScript `Map.get`. -/
def mapGet? {κ α : Type} [DecidableEq κ] (k : κ) : List (κ × α) → Option α
  | [] => none
  | (k', v') :: rest => if k' = k then some v' else mapGet? k rest

/-- A transaction as in `src/core/types` (`src/unnamed/part_009`): `from`,
`to`, `value` and `data` are strings, `nonce`, `gasLimit` and `gasPrice` are
numbers (non-negative in every validated transaction, so modelled as `Nat`). -/
structure Transaction where
  fromAddr : String
  toAddr : String
  value : String
  data : String
  nonce : Nat
  gasLimit : Nat
  gasPrice : Nat
deriving DecidableEq, Repr

/-- Structure `BatchConfig` from `src/core/types`. -/
structure BatchConfig where
  maxTransactions : Nat
  maxGasLimit : Nat
  aggregationSize : Nat
  batchInterval : Nat
deriving DecidableEq, Repr

/-- Model of `ethers.isAddress` on the inputs this code produces:
`s.length == 42 && s.startsWith("0x")` and the remaining 40 characters are
lowercase hexadecimal digits, written over the character list of `s`.  (The
library also accepts EIP-55 checksummed mixed case; no claim depends on
that case.) -/
def isAddress (s : String) : Bool :=
  s.data.length = 42 && s.data.take 2 = ['0', 'x'] &&
    (s.data.drop 2).all fun c => c.isDigit || ('a' ≤ c && c ≤ 'f')

/-- Value of a decimal digit string, used by `parseBigInt?`. -/
def digitsToNat (ds : List Char) : Nat :=
  ds.foldl (fun n c => n * 10 + (c.toNat - 48)) 0

/-- Model of JavaScript `BigInt(string)` on decimal integer literals: an
optional sign followed by digits, the empty string denoting 0; `none` for
the strings on which `BigInt` throws a `SyntaxError`.  (`BigInt` also
accepts `0x`/`0o`/`0b` literals and surrounding whitespace; no claim
exercises those forms.) -/
def parseBigInt? (s : String) : Option Int :=
  match s.data with
  | [] => some 0
  | '-' :: ds =>
    if ds.length ≠ 0 && ds.all (fun c => c.isDigit) then some (-(digitsToNat ds : Int))
    else none
  | '+' :: ds =>
    if ds.length ≠ 0 && ds.all (fun c => c.isDigit) then some (digitsToNat ds)
    else none
  | ds => if ds.all (fun c => c.isDigit) then some (digitsToNat ds) else none

/-- The content of `keccak256(JSON({from,to,value,data,nonce,gasLimit,gasPrice}))`:
the JSON encoding of the fixed seven-field record is injective, so the digest
is modelled as the record of the digested fields. -/
structure TxDigest where
  fromAddr : String
  toAddr : String
  value : String
  data : String
  nonce : Nat
  gasLimit : Nat
  gasPrice : Nat
deriving DecidableEq, Repr

/-- Method `BatchProcessor.generateTransactionHash` (batch-processor lines 87-98). -/
def generateTransactionHash (tx : Transaction) : TxDigest :=
  { fromAddr := tx.fromAddr, toAddr := tx.toAddr, value := tx.value, data := tx.data
    nonce := tx.nonce, gasLimit := tx.gasLimit, gasPrice := tx.gasPrice }

/-- Method `BatchProcessor.validateTransaction` (batch-processor lines 135-160),
check for check and in source order.  `nonce` and `gasPrice` are `Nat`, so
the two non-negativity checks of the source are vacuously passed.
`BigInt(tx.value)` is modelled by `parseBigInt?`, with the parse failure
modelling the `SyntaxError` JavaScript throws on an unparsable string; the
empty string is falsy, so the value check is skipped for it, and likewise
the data check for empty `data`. -/
def validateTransaction (cfg : BatchConfig) (tx : Transaction) : Except String Unit := do
  if !isAddress tx.fromAddr then throw "Invalid from address"
  if !isAddress tx.toAddr then throw "Invalid to address"
  if cfg.maxGasLimit < tx.gasLimit then throw "Gas limit exceeds maximum allowed"
  if tx.gasLimit < 21000 then throw "Gas limit below minimum required"
  if tx.value ≠ "" then
    match parseBigInt? tx.value with
    | none => throw "SyntaxError"
    | some v => if v < 0 then throw "Value must be non-negative" else pure ()
  if tx.data ≠ "" && tx.data.data.take 2 ≠ ['0', 'x'] then throw "Data must be a hex string"

/-- Mutable state of a `BatchProcessor` (batch-processor lines 50-79).
`batchStats` maps a batch index to the recorded transaction count and gas
usage (the wall-clock timestamp the source also stores is outside the
model).  The `rollupContract`, `stateRootManager` and `logger` references
are external collaborators and carry no modelled state. -/
structure BatchProcessorState where
  config : BatchConfig
  pendingTransactions : List Transaction
  batchIndex : Nat
  processing : Bool
  transactionHashes : List TxDigest
  batchStats : List (Nat × Nat × Nat)
deriving DecidableEq, Repr

/-- Method `BatchProcessor.addTransaction` (lines 100-111): validate, digest, drop
silently when the digest is already present, otherwise append transaction
and digest. -/
def addTransaction (s : BatchProcessorState) (tx : Transaction) :
    Except String BatchProcessorState := do
  let _ ← validateTransaction s.config tx
  let txHash := generateTransactionHash tx
  if txHash ∈ s.transactionHashes then
    pure s
  else
    pure { s with pendingTransactions := s.pendingTransactions ++ [tx]
                  transactionHashes := s.transactionHashes ++ [txHash] }

/-- Method `BatchProcessor.getPendingTransactionCount` (lines 375-377). -/
def getPendingTransactionCount (s : BatchProcessorState) : Nat :=
  s.pendingTransactions.length

/-- Method `BatchProcessor.clearPendingTransactions` (lines 395-398): the only place
the digest set is emptied. -/
def clearPendingTransactions (s : BatchProcessorState) : BatchProcessorState :=
  { s with pendingTransactions := [], transactionHashes := [] }

/-- Method `BatchProcessor.estimateCurrentGasPrice` (lines 174-177): the source
returns the constant 10 (gwei). -/
def estimateCurrentGasPrice : ℚ := 10

/-- Method `BatchProcessor.calculateOptimalBatchSize` (lines 162-172):
`min(maxTransactions, pending.length)` scaled by a gas multiplier clamped to
`[0.5, 1.5]`, floored, and clamped to `[1, maxTransactions]`.  JavaScript
number arithmetic on these values is exact and is modelled over `ℚ`. -/
def calculateOptimalBatchSize (s : BatchProcessorState) : Nat :=
  let baseSize : Nat := min s.config.maxTransactions s.pendingTransactions.length
  let gasMultiplier : ℚ := max (1/2) (min (3/2) (1 / (estimateCurrentGasPrice / 10)))
  let optimalSize : Int := ⌊(baseSize : ℚ) * gasMultiplier⌋
  max 1 (min optimalSize.toNat s.config.maxTransactions)

/-- The fee-priority key of `optimizeBatch`: `gasLimit * gasPrice`. -/
def txSortKey (tx : Transaction) : Nat :=
  tx.gasLimit * tx.gasPrice

/-- One insertion step of a stable descending sort: `t` is placed before the
first element whose key is not larger than `t`'s own key. -/
def insertDescTx (t : Transaction) : List Transaction → List Transaction
  | [] => [t]
  | y :: ys => if txSortKey y ≤ txSortKey t then t :: y :: ys else y :: insertDescTx t ys

/-- Function `optimizeBatch` (batch-processor lines 42-48):
`transactions.sort((a, b) => b.gasLimit * b.gasPrice - a.gasLimit * a.gasPrice)`.
`Array.prototype.sort` is a stable sort ordered by the comparator, i.e.
descending `gasLimit * gasPrice` with ties kept in arrival order; any stable
sort realises exactly that result, modelled here by stable insertion. -/
def optimizeBatch (transactions : List Transaction) : List Transaction :=
  transactions.foldr insertDescTx []

/-- Function `calculateGasUsage` (batch-processor lines 38-40). -/
def calculateGasUsage (transactions : List Transaction) : Nat :=
  transactions.foldl (fun total tx => total + tx.gasLimit) 0

/-- The synchronous prefix of `BatchProcessor.createBatch` (lines 179-195),
up to and including the evaluation of the arguments of the awaited
`generateProofForBatch(optimizedTransactions, this.batchIndex)` call: the
empty-pool check, the drain of `batchSize` transactions, the fee-priority
sort, and the read of the yet-unincremented `this.batchIndex`. -/
structure CreateBatchPhaseA where
  proverInput : List Transaction
  assignedIndex : Nat
  txCount : Nat
  gasUsed : Nat
  state : BatchProcessorState
deriving DecidableEq, Repr

/-- Phase A of `createBatch`; see `CreateBatchPhaseA`. -/
def createBatchPhaseA (s : BatchProcessorState) : Except String CreateBatchPhaseA :=
  if s.pendingTransactions.length = 0 then
    .error "No pending transactions to batch"
  else
    let batchSize := calculateOptimalBatchSize s
    let batchTransactions := s.pendingTransactions.take batchSize
    let optimizedTransactions := optimizeBatch batchTransactions
    .ok { proverInput := optimizedTransactions
          assignedIndex := s.batchIndex
          txCount := batchTransactions.length
          gasUsed := calculateGasUsage optimizedTransactions
          state := { s with pendingTransactions := s.pendingTransactions.drop batchSize } }

/-- The continuation of `createBatch` after the awaited proof resolves
(lines 197-206): record `batchStats` under the re-read current
`this.batchIndex` and increment the counter. -/
def createBatchPhaseB (txCount gasUsed : Nat) (s : BatchProcessorState) :
    BatchProcessorState :=
  { s with batchStats := mapSet s.batchIndex (txCount, gasUsed) s.batchStats
           batchIndex := s.batchIndex + 1 }

/-- Result of a completed `createBatch` call: the transaction list handed to
the prover, the batch index it was generated under, and the state after the
call. -/
structure CreateBatchResult where
  proverInput : List Transaction
  assignedIndex : Nat
  newState : BatchProcessorState
deriving DecidableEq, Repr

/-- Method `BatchProcessor.createBatch` (lines 179-207) run to completion with no
interleaved call: phase A, the awaited proof generation (external), then
phase B. -/
def createBatch (s : BatchProcessorState) : Except String CreateBatchResult :=
  (createBatchPhaseA s).map fun a =>
    { proverInput := a.proverInput
      assignedIndex := a.assignedIndex
      newState := createBatchPhaseB a.txCount a.gasUsed a.state }

/-- Two `createBatch` calls started back to back before either proof
resolves, exactly as `processPendingTransactions` (lines 336-346) does when
it pushes several `this.createBatch()` promises and then awaits them:
each call runs its synchronous phase A at call time, and each phase B runs
when its proof promise resolves. -/
def concurrentCreateBatch2 (s : BatchProcessorState) :
    Except String (CreateBatchResult × CreateBatchResult) := do
  let a1 ← createBatchPhaseA s
  let a2 ← createBatchPhaseA a1.state
  let s1 := createBatchPhaseB a1.txCount a1.gasUsed a2.state
  let s2 := createBatchPhaseB a2.txCount a2.gasUsed s1
  pure ({ proverInput := a1.proverInput, assignedIndex := a1.assignedIndex, newState := s1 },
        { proverInput := a2.proverInput, assignedIndex := a2.assignedIndex, newState := s2 })

/-- One cycle entry of the sequential drain loop of
`BatchProcessor.processPendingTransactions` (lines 336-354): the prover
input and assigned index of each completed `createBatch`.  The aggregated
settlement posting the loop performs touches the `StateRootManager`, which
is modelled separately (`submitAggregatedStateUpdates`). -/
def processLoop : Nat → BatchProcessorState → List (List Transaction × Nat) × BatchProcessorState
  | 0, s => ([], s)
  | fuel + 1, s =>
    if s.pendingTransactions.isEmpty then ([], s)
    else
      match createBatch s with
      | .error _ => ([], s)
      | .ok r =>
        let (rest, s') := processLoop fuel r.newState
        ((r.proverInput, r.assignedIndex) :: rest, s')

/-- Method `BatchProcessor.processPendingTransactions` (lines 324-367) under its
single-caller (sequential) semantics: an immediate empty return when the
`processing` flag is already set, otherwise the flag is raised, the pool is
drained batch by batch, and the flag is cleared in the `finally`.  Each
completed batch removes at least one transaction, so the pool length bounds
the number of iterations. -/
def processPendingTransactions (s : BatchProcessorState) :
    List (List Transaction × Nat) × BatchProcessorState :=
  if s.processing then ([], s)
  else
    let (proofs, s') := processLoop s.pendingTransactions.length { s with processing := true }
    (proofs, { s' with processing := false })

/-- Method `RollupSequencer.processBatch` (config module lines 589-610), the body
of every timer tick: return empty on an empty pool, return empty when
`batchProcessor.isProcessing()` reports a cycle in flight (the same check
`processPendingTransactions` repeats), otherwise run the drain loop. -/
def processBatchTick (s : BatchProcessorState) :
    List (List Transaction × Nat) × BatchProcessorState :=
  if getPendingTransactionCount s = 0 then ([], s)
  else if s.processing then ([], s)
  else processPendingTransactions s

/-- Method `RollupSequencer.forceBatch` (config module lines 612-621): an
`EmptyPool` error on an empty pool, otherwise
`batchProcessor.createAndPostBatch` → `createBatch`, with no consultation of
the `processing` single-flight flag anywhere on the path.  (The subsequent
`postBatchToL1` posting targets the `StateRootManager`, modelled
separately.) -/
def forceBatch (s : BatchProcessorState) : Except String CreateBatchResult :=
  if getPendingTransactionCount s = 0 then
    .error "No pending transactions to batch"
  else
    createBatch s

/-- Public values of a proof: `StateTransitionProof` from `src/core/types`. -/
structure StateTransitionProof where
  oldStateRoot : String
  newStateRoot : String
  batchIndex : Nat
  transactionCount : Nat
  transactionHashes : List String
deriving DecidableEq, Repr

/-- Structure `ProofResult` from `src/core/types`. -/
structure ProofResult where
  proofId : String
  batchIndex : Nat
  proofData : String
  publicValues : StateTransitionProof
  proofSize : Nat
  generationTime : Nat
  timestamp : Nat
deriving DecidableEq, Repr

/-- A batch record as stored in `StateRootManager.batchHistory` (the
wall-clock timestamp the source stores is outside the model). -/
structure BatchRecord where
  batchIndex : Nat
  stateRoot : String
  transactionHashes : List String
  finalized : Bool
deriving DecidableEq, Repr

/-- Mutable state of a `StateRootManager` (config module lines 292-304).
The `stateStorage` balance map is untouched by every operation a claim
mentions and is omitted. -/
structure StateRootManagerState where
  stateHistory : List (Nat × String)
  batchHistory : List (Nat × BatchRecord)
deriving DecidableEq, Repr

/-- Method `StateRootManager.verifyStateTransition` (config module lines 376-396):
compare the caller-supplied roots against the proof's public values. -/
def verifyStateTransition (oldRoot newRoot : String) (proofResult : ProofResult) : Bool :=
  oldRoot == proofResult.publicValues.oldStateRoot &&
    newRoot == proofResult.publicValues.newStateRoot

/-- Decidable equality for `Except` results, used to evaluate outcomes on
concrete inputs. -/
instance {ε α : Type} [DecidableEq ε] [DecidableEq α] : DecidableEq (Except ε α) := fun a b =>
  match a, b with
  | .ok x, .ok y =>
    if h : x = y then .isTrue (by subst h; rfl)
    else .isFalse (fun hc => h (Except.ok.inj hc))
  | .error x, .error y =>
    if h : x = y then .isTrue (by subst h; rfl)
    else .isFalse (fun hc => h (Except.error.inj hc))
  | .ok _, .error _ => .isFalse (fun hc => Except.noConfusion hc)
  | .error _, .ok _ => .isFalse (fun hc => Except.noConfusion hc)

/-- Observable outcome of a submission: the returned value or thrown error,
the manager state after the call, and whether the external settlement
ledger was invoked at all. -/
structure SubmitOutcome where
  result : Except String Bool
  finalState : StateRootManagerState
  ledgerCalled : Bool
deriving DecidableEq, Repr

/-- The `batchHistory` record written for a proof on successful submission
(config module lines 429-435). -/
def batchRecordOf (proof : ProofResult) : BatchRecord :=
  { batchIndex := proof.batchIndex
    stateRoot := proof.publicValues.newStateRoot
    transactionHashes := proof.publicValues.transactionHashes
    finalized := true }

/-- Method `StateRootManager.submitStateUpdate` (config module lines 406-446).
`currentRoot` is the root the external ledger reports
(`getCurrentStateRoot`), `ledgerAccepts` abstracts whether the awaited
`rollupContract.submitBatch` call succeeds.  The guard passes
`proofResult.publicValues.newStateRoot` as the `newRoot` argument of
`verifyStateTransition`, exactly as the source does, so the effective check
is `currentRoot == proofResult.publicValues.oldStateRoot`. -/
def submitStateUpdate (currentRoot : String) (ledgerAccepts : Bool)
    (proofResult : ProofResult) (s : StateRootManagerState) : SubmitOutcome :=
  if !verifyStateTransition currentRoot proofResult.publicValues.newStateRoot proofResult then
    { result := .error "Invalid state transition", finalState := s, ledgerCalled := false }
  else if ledgerAccepts then
    { result := .ok true
      finalState :=
        { stateHistory :=
            mapSet proofResult.batchIndex proofResult.publicValues.newStateRoot s.stateHistory
          batchHistory := mapSet proofResult.batchIndex (batchRecordOf proofResult) s.batchHistory }
      ledgerCalled := true }
  else
    { result := .error "SettlementError", finalState := s, ledgerCalled := true }

/-- The history mutation `submitAggregatedStateUpdates` performs on ledger
acceptance (config module lines 464-473): one `Map.set` per proof, in
order. -/
def applyAggregatedUpdates (proofResults : List ProofResult)
    (s : StateRootManagerState) : StateRootManagerState :=
  proofResults.foldl
    (fun acc proof =>
      { stateHistory := mapSet proof.batchIndex proof.publicValues.newStateRoot acc.stateHistory
        batchHistory := mapSet proof.batchIndex (batchRecordOf proof) acc.batchHistory })
    s

/-- Method `StateRootManager.submitAggregatedStateUpdates` (config module lines
448-484; the `src/unnamed/part_000` lines 384-407 variant differs only in
logging and in not keeping `batchHistory`).  The fetched `currentRoot` is
bound and never compared against anything; no transition of the aggregate
is verified.  On an empty list, `proofResults[0].proofData` raises a
`TypeError` before the ledger is reached. -/
def submitAggregatedStateUpdates (currentRoot : String) (ledgerAccepts : Bool)
    (proofResults : List ProofResult) (s : StateRootManagerState) : SubmitOutcome :=
  match proofResults with
  | [] => { result := .error "TypeError", finalState := s, ledgerCalled := false }
  | _ :: _ =>
    if ledgerAccepts then
      { result := .ok true
        finalState := applyAggregatedUpdates proofResults s
        ledgerCalled := true }
    else
      { result := .error "SettlementError", finalState := s, ledgerCalled := true }

/-- The root chain condition the specification demands of an aggregate
submission over transitions `t0..tn`: `t0.old` equals the manager's current
root and each later `ti.old` equals `t(i-1).new`. -/
def rootChainOk (currentRoot : String) : List ProofResult → Bool
  | [] => true
  | p :: rest =>
    p.publicValues.oldStateRoot == currentRoot &&
      rootChainOk p.publicValues.newStateRoot rest

/-- Mutable state of a `ProofGenerator` (`src/unnamed/part_008` lines 4-11).
`pendingProofs` maps a batch index to the eventual result of the in-flight
promise stored under it; `proofCache` maps a cache key string to a completed
proof. -/
structure ProofGeneratorState where
  pendingProofs : List (Nat × Except String ProofResult)
  proofCache : List (String × ProofResult)
deriving DecidableEq, Repr

/-- Method `ProofGenerator.generateCacheKey` (part_008 lines 64-69): the batch
index and, for each transaction, only `from`, `to`, `value` and `nonce`,
joined with underscores. -/
def generateCacheKey (transactions : List Transaction) (batchIndex : Nat) : String :=
  let txHashes := String.intercalate "_" (transactions.map fun tx =>
    tx.fromAddr ++ "_" ++ tx.toAddr ++ "_" ++ tx.value ++ "_" ++ toString tx.nonce)
  toString batchIndex ++ "_" ++ txHashes

/-- Observable outcome of a `generateProof` call: the returned proof or
propagated error, the generator state after the call, and whether the
external prover was invoked. -/
structure GenerateProofOutcome where
  result : Except String ProofResult
  finalState : ProofGeneratorState
  proverCalled : Bool
deriving DecidableEq, Repr

/-- Method `ProofGenerator.generateProof` (part_008 lines 13-37) under sequential
semantics.  `prover` abstracts the awaited `doGenerateProof` result.  A
cache hit returns immediately; an in-flight entry for the index is awaited
and its result returned; otherwise the pending entry is installed, the
prover awaited, the cache written only on success, and the pending entry
removed in the `finally` (so the installed entry is gone again in the final
state, leaving `pendingProofs` as before the call). -/
def generateProof (prover : Except String ProofResult)
    (transactions : List Transaction) (batchIndex : Nat)
    (s : ProofGeneratorState) : GenerateProofOutcome :=
  let cacheKey := generateCacheKey transactions batchIndex
  match mapGet? cacheKey s.proofCache with
  | some cached => { result := .ok cached, finalState := s, proverCalled := false }
  | none =>
    match mapGet? batchIndex s.pendingProofs with
    | some inflight => { result := inflight, finalState := s, proverCalled := false }
    | none =>
      match prover with
      | .ok proof =>
        { result := .ok proof
          finalState := { s with proofCache := mapSet cacheKey proof s.proofCache }
          proverCalled := true }
      | .error e =>
        { result := .error e, finalState := s, proverCalled := true }

/-! ### Concrete inputs used by counterexamples and witnesses -/

/-- A well-formed lowercase sender address. -/
def addrA : String := "0xaaaaaaaaaaaaaaaaaaaaaaaaaaaaaaaaaaaaaaaa"

/-- A well-formed lowercase recipient address. -/
def addrB : String := "0xbbbbbbbbbbbbbbbbbbbbbbbbbbbbbbbbbbbbbbbb"

/-- The default `BatchConfig` of the `BatchProcessor` constructor. -/
def cfgDefault : BatchConfig :=
  { maxTransactions := 100, maxGasLimit := 10000000, aggregationSize := 5,
    batchInterval := 30000 }

/-- The default configuration with `maxTransactions := 1`, forcing
single-transaction batches. -/
def cfgOne : BatchConfig := { cfgDefault with maxTransactions := 1 }

/-- A minimal valid transaction. -/
def txP : Transaction :=
  { fromAddr := addrA, toAddr := addrB, value := "1", data := "0x", nonce := 0,
    gasLimit := 21000, gasPrice := 5 }

/-- A second valid transaction, distinct from `txP` by nonce. -/
def txQ : Transaction := { txP with nonce := 1 }

/-- A low fee-priority transaction (`txSortKey` 105000). -/
def txLow : Transaction := txP

/-- A high fee-priority transaction (`txSortKey` 1050000), distinct from
`txLow`. -/
def txHigh : Transaction := { txP with nonce := 2, gasPrice := 50 }

/-- A transaction that agrees with `txP` on `from`, `to`, `value` and
`nonce` but differs in `gasLimit`. -/
def txPBigGas : Transaction := { txP with gasLimit := 50000 }

/-- A fresh `BatchProcessor` state (ledger reported batch index 0). -/
def sEmpty0 : BatchProcessorState :=
  { config := cfgDefault, pendingTransactions := [], batchIndex := 0, processing := false,
    transactionHashes := [], batchStats := [] }

/-- The state after `addTransaction sEmpty0 txP`. -/
def s5Pending : BatchProcessorState :=
  { config := cfgDefault, pendingTransactions := [txP], batchIndex := 0, processing := false,
    transactionHashes := [generateTransactionHash txP], batchStats := [] }

/-- The state after `createBatch s5Pending` drained `txP`: the digest of the
drained transaction is still in `transactionHashes`. -/
def s5Drained : BatchProcessorState :=
  { config := cfgDefault, pendingTransactions := [], batchIndex := 1, processing := false,
    transactionHashes := [generateTransactionHash txP], batchStats := [(0, 1, 21000)] }

/-- The `createBatch` result on `s5Pending`. -/
def r5 : CreateBatchResult :=
  { proverInput := [txP], assignedIndex := 0, newState := s5Drained }

/-- A `BatchProcessor` state inside `processPendingTransactions` (the
`processing` flag raised) with `maxTransactions := 1` and two pending
transactions, the situation in which the loop launches
`min(3, ceil(2 / 1)) = 2` parallel `createBatch` calls. -/
def sC2 : BatchProcessorState :=
  { config := cfgOne, pendingTransactions := [txP, txQ], batchIndex := 0, processing := true,
    transactionHashes := [generateTransactionHash txP, generateTransactionHash txQ],
    batchStats := [] }

/-- A state with a cycle in flight (`processing = true`) and one pending
transaction. -/
def sBusy : BatchProcessorState :=
  { config := cfgDefault, pendingTransactions := [txP], batchIndex := 0, processing := true,
    transactionHashes := [generateTransactionHash txP], batchStats := [] }

/-- The state after `forceBatch sBusy` ran a full `createBatch` although a
cycle was already in flight. -/
def sBusyDrained : BatchProcessorState :=
  { config := cfgDefault, pendingTransactions := [], batchIndex := 1, processing := true,
    transactionHashes := [generateTransactionHash txP], batchStats := [(0, 1, 21000)] }

/-- A state with two pending transactions arriving in ascending fee
priority, so that the fee-priority sort must reorder them. -/
def sC9 : BatchProcessorState :=
  { config := cfgDefault, pendingTransactions := [txLow, txHigh], batchIndex := 0,
    processing := false,
    transactionHashes := [generateTransactionHash txLow, generateTransactionHash txHigh],
    batchStats := [] }

/-- The state after `createBatch sC9` drained both transactions. -/
def sC9Drained : BatchProcessorState :=
  { config := cfgDefault, pendingTransactions := [], batchIndex := 1, processing := false,
    transactionHashes := [generateTransactionHash txLow, generateTransactionHash txHigh],
    batchStats := [(0, 2, 42000)] }

/-- The `createBatch` result on `sC9`: the prover input is the drained pair
reordered by descending fee priority. -/
def rC9 : CreateBatchResult :=
  { proverInput := [txHigh, txLow], assignedIndex := 0, newState := sC9Drained }

/-- A proof result whose declared old root `"bad"` matches no chain. -/
def prAgg1 : ProofResult :=
  { proofId := "p1", batchIndex := 0, proofData := "d1",
    publicValues := { oldStateRoot := "bad", newStateRoot := "r1", batchIndex := 0,
                      transactionCount := 1, transactionHashes := [] },
    proofSize := 0, generationTime := 0, timestamp := 0 }

/-- A proof result chaining from `"r1"` to `"r2"` at batch index 1. -/
def prAgg2 : ProofResult :=
  { proofId := "p2", batchIndex := 1, proofData := "d2",
    publicValues := { oldStateRoot := "r1", newStateRoot := "r2", batchIndex := 1,
                      transactionCount := 1, transactionHashes := [] },
    proofSize := 0, generationTime := 0, timestamp := 0 }

/-- An aggregate whose root chain is broken at its head: the manager's
current root is `"r0"` but `prAgg1` declares old root `"bad"`. -/
def aggProofs : List ProofResult := [prAgg1, prAgg2]

/-- A proof result correctly chaining from `"r0"` to `"r1"` at index 0. -/
def prGood : ProofResult :=
  { proofId := "pg", batchIndex := 0, proofData := "dg",
    publicValues := { oldStateRoot := "r0", newStateRoot := "r1", batchIndex := 0,
                      transactionCount := 1, transactionHashes := [] },
    proofSize := 0, generationTime := 0, timestamp := 0 }

/-- A proof result distinct from `prGood` (different identifier). -/
def prAlt : ProofResult := { prGood with proofId := "palt" }

/-- A fresh `StateRootManager` state. -/
def srm0 : StateRootManagerState := { stateHistory := [], batchHistory := [] }

/-- A fresh `ProofGenerator` state. -/
def pg0 : ProofGeneratorState := { pendingProofs := [], proofCache := [] }

/-- The generator state after a completed `generateProof` call for the
transaction set `[txP]` at batch index 0, whose result was `prGood`. -/
def pgCached : ProofGeneratorState :=
  (generateProof (.ok prGood) [txP] 0 pg0).finalState

/-- Fee-priority order used by the claims about `optimizeBatch`: `a` is of
priority at least that of `b`. -/
def txGeKey (a b : Transaction) : Prop := txSortKey b ≤ txSortKey a

/-! ### Helper lemmas -/

/-- With the constant gas estimator of the source, the clamped gas
multiplier is exactly 1, so the optimal batch size reduces to
`max(1, min(maxTransactions, pending.length))`. -/
theorem calculateOptimalBatchSize_eq (s : BatchProcessorState) :
    calculateOptimalBatchSize s =
      max 1 (min s.config.maxTransactions s.pendingTransactions.length) := by
  have h1 : (max (1/2 : ℚ) (min (3/2) (1 / (estimateCurrentGasPrice / 10)))) = 1 := by
    norm_num [estimateCurrentGasPrice]
  simp only [calculateOptimalBatchSize, h1, mul_one, Int.floor_natCast, Int.toNat_natCast]
  omega

/-- A `Map.set` binding is found by a `Map.get` with the same key. -/
theorem mapGet?_mapSet_same {κ α : Type} [DecidableEq κ] (k : κ) (v : α)
    (m : List (κ × α)) : mapGet? k (mapSet k v m) = some v := by
  induction m with
  | nil => simp [mapSet, mapGet?]
  | cons hd tl ih =>
    obtain ⟨k', v'⟩ := hd
    by_cases h : k' = k
    · subst h; simp [mapSet, mapGet?]
    · simp [mapSet, mapGet?, h, ih]

/-- Unfolding of a successful `createBatch` into its phase-A and phase-B
components. -/
theorem createBatch_ok_elim (s : BatchProcessorState) (r : CreateBatchResult)
    (h : createBatch s = .ok r) :
    r.proverInput = optimizeBatch (s.pendingTransactions.take (calculateOptimalBatchSize s)) ∧
    r.assignedIndex = s.batchIndex ∧
    r.newState =
      createBatchPhaseB (s.pendingTransactions.take (calculateOptimalBatchSize s)).length
        (calculateGasUsage
          (optimizeBatch (s.pendingTransactions.take (calculateOptimalBatchSize s))))
        { s with pendingTransactions :=
            s.pendingTransactions.drop (calculateOptimalBatchSize s) } := by
  rw [createBatch, createBatchPhaseA] at h
  split at h
  · exact absurd h (by simp [Except.map])
  · simp only [Except.map] at h
    have h2 := Except.ok.inj h
    subst h2
    exact ⟨rfl, rfl, rfl⟩

/-- A duplicate submission (digest already recorded, validation passing) is
a silent no-op of `addTransaction`. -/
theorem addTransaction_dup_eq (s : BatchProcessorState) (tx : Transaction)
    (hval : validateTransaction s.config tx = .ok ())
    (hmem : generateTransactionHash tx ∈ s.transactionHashes) :
    addTransaction s tx = .ok s := by
  simp [addTransaction, hval, hmem]

/-- Function `optimizeBatch` processes the arrival list from the back, inserting
each earlier transaction into the sorted tail. -/
theorem optimizeBatch_cons (x : Transaction) (xs : List Transaction) :
    optimizeBatch (x :: xs) = insertDescTx x (optimizeBatch xs) := rfl

/-- Every member of an insertion result is the inserted transaction or a
member of the original list. -/
theorem mem_insertDescTx {z t : Transaction} {l : List Transaction}
    (h : z ∈ insertDescTx t l) : z = t ∨ z ∈ l := by
  induction l with
  | nil => simpa [insertDescTx] using h
  | cons y ys ih =>
    rw [insertDescTx] at h
    by_cases hc : txSortKey y ≤ txSortKey t
    · rw [if_pos hc] at h
      rcases List.mem_cons.mp h with rfl | h2
      · exact .inl rfl
      · exact .inr h2
    · rw [if_neg hc] at h
      rcases List.mem_cons.mp h with rfl | h2
      · exact .inr (List.mem_cons_self _ _)
      · rcases ih h2 with rfl | h3
        · exact .inl rfl
        · exact .inr (List.mem_cons_of_mem _ h3)

/-- Insertion preserves descending fee-priority order. -/
theorem pairwise_insertDescTx (t : Transaction) (l : List Transaction)
    (h : List.Pairwise txGeKey l) : List.Pairwise txGeKey (insertDescTx t l) := by
  induction l with
  | nil => simp [insertDescTx]
  | cons y ys ih =>
    rw [insertDescTx]
    rcases List.pairwise_cons.mp h with ⟨hy, hys⟩
    by_cases hc : txSortKey y ≤ txSortKey t
    · rw [if_pos hc]
      refine List.pairwise_cons.mpr ⟨?_, h⟩
      intro z hz
      rcases List.mem_cons.mp hz with rfl | hz2
      · exact hc
      · exact le_trans (hy z hz2) hc
    · rw [if_neg hc]
      refine List.pairwise_cons.mpr ⟨?_, ih hys⟩
      intro z hz
      rcases mem_insertDescTx hz with rfl | hz2
      · exact le_of_not_le hc
      · exact hy z hz2

/-- On a descending-sorted list, inserting `t` prepends `t` to the
fee-priority class of its own key and leaves every other class untouched. -/
theorem filter_insertDescTx (k : Nat) (t : Transaction) (l : List Transaction)
    (h : List.Pairwise txGeKey l) :
    (insertDescTx t l).filter (fun x => txSortKey x == k) =
      if txSortKey t = k then t :: l.filter (fun x => txSortKey x == k)
      else l.filter (fun x => txSortKey x == k) := by
  induction l with
  | nil =>
    by_cases hk : txSortKey t = k <;>
      simp [insertDescTx, List.filter_cons, hk]
  | cons y ys ih =>
    rcases List.pairwise_cons.mp h with ⟨hy, hys⟩
    rw [insertDescTx]
    by_cases hc : txSortKey y ≤ txSortKey t
    · rw [if_pos hc]
      by_cases hk : txSortKey t = k <;>
        simp [List.filter_cons, hk]
    · rw [if_neg hc, List.filter_cons, List.filter_cons, ih hys]
      by_cases hk : txSortKey t = k
      · have hyk : ¬(txSortKey y = k) := by
          have := lt_of_not_le hc
          omega
        simp [hk, hyk]
      · simp [hk]

/-- The fee-priority sort of `optimizeBatch` yields a descending-sorted
list. -/
theorem optimizeBatch_pairwise (l : List Transaction) :
    List.Pairwise txGeKey (optimizeBatch l) := by
  induction l with
  | nil => simp [optimizeBatch]
  | cons x xs ih =>
    rw [optimizeBatch_cons]
    exact pairwise_insertDescTx x _ ih

/-- Stability of the fee-priority sort: every fee-priority class of the
output equals the corresponding class of the input, in arrival order. -/
theorem optimizeBatch_filter (k : Nat) (l : List Transaction) :
    (optimizeBatch l).filter (fun x => txSortKey x == k) =
      l.filter (fun x => txSortKey x == k) := by
  induction l with
  | nil => rfl
  | cons x xs ih =>
    rw [optimizeBatch_cons, filter_insertDescTx k x _ (optimizeBatch_pairwise xs),
      List.filter_cons]
    by_cases hk : txSortKey x = k <;> simp [hk, ih]

/-! ### Claim theorems -/

/-- C4: a single submission whose proof declares an old state root
different from the manager's current root fails with `InvalidTransition`
("Invalid state transition"), does not reach the settlement ledger, and
leaves the state history unchanged; by this very statement the ledger is
reached only when the declared old root equals the current root. -/
theorem claim4_submitSingle_root_guard (currentRoot : String) (ledgerAccepts : Bool)
    (pr : ProofResult) (s : StateRootManagerState)
    (h : pr.publicValues.oldStateRoot ≠ currentRoot) :
    submitStateUpdate currentRoot ledgerAccepts pr s =
      { result := .error "Invalid state transition", finalState := s,
        ledgerCalled := false } := by
  have hv : verifyStateTransition currentRoot pr.publicValues.newStateRoot pr = false := by
    simp only [verifyStateTransition, Bool.and_eq_false_iff, beq_eq_false_iff_ne, ne_eq]
    exact Or.inl fun hx => h hx.symm
  simp [submitStateUpdate, hv]

/-- Witness for C4 at a concrete mismatching proof. -/
theorem claim4_witness :
    prAgg1.publicValues.oldStateRoot ≠ "r0" ∧
    submitStateUpdate "r0" true prAgg1 srm0 =
      { result := .error "Invalid state transition", finalState := srm0,
        ledgerCalled := false } :=
  ⟨by decide, claim4_submitSingle_root_guard "r0" true prAgg1 srm0 (by decide)⟩

/-- C8: every single submission that returns `true` stores exactly the
proof's declared new state root in the state history at the proof's batch
index. -/
theorem claim8_history_records_new_root (currentRoot : String) (ledgerAccepts : Bool)
    (pr : ProofResult) (s : StateRootManagerState)
    (h : (submitStateUpdate currentRoot ledgerAccepts pr s).result = .ok true) :
    mapGet? pr.batchIndex
        (submitStateUpdate currentRoot ledgerAccepts pr s).finalState.stateHistory =
      some pr.publicValues.newStateRoot := by
  by_cases hv : verifyStateTransition currentRoot pr.publicValues.newStateRoot pr
  · by_cases ha : ledgerAccepts
    · simp [submitStateUpdate, hv, ha, mapGet?_mapSet_same]
    · simp [submitStateUpdate, hv, ha] at h
  · simp only [submitStateUpdate, Bool.not_eq_true] at hv
    simp [submitStateUpdate, hv] at h

/-- Witness for C8 at a concrete successful submission. -/
theorem claim8_witness :
    (submitStateUpdate "r0" true prGood srm0).result = .ok true ∧
    mapGet? prGood.batchIndex
        (submitStateUpdate "r0" true prGood srm0).finalState.stateHistory =
      some prGood.publicValues.newStateRoot := by
  have h : (submitStateUpdate "r0" true prGood srm0).result = .ok true := by decide
  exact ⟨h, claim8_history_records_new_root "r0" true prGood srm0 h⟩

/-- C7: adding a transaction whose content digest is already recorded (and
which passes validation, as every already-recorded transaction does under
the unchanged configuration) is a silent no-op: no error, the state —
including the queue — is unchanged, and the pending count reported by
`getPendingTransactionCount` is unchanged. -/
theorem claim7_duplicate_addTransaction_noop (s : BatchProcessorState) (tx : Transaction)
    (hval : validateTransaction s.config tx = .ok ())
    (hdup : generateTransactionHash tx ∈ s.transactionHashes) :
    addTransaction s tx = .ok s ∧
    (addTransaction s tx).map getPendingTransactionCount =
      .ok (getPendingTransactionCount s) := by
  have h := addTransaction_dup_eq s tx hval hdup
  exact ⟨h, by rw [h]; rfl⟩

/-- Witness for C7: re-adding the already-pending `txP`. -/
theorem claim7_witness :
    validateTransaction s5Pending.config txP = .ok () ∧
    generateTransactionHash txP ∈ s5Pending.transactionHashes ∧
    addTransaction s5Pending txP = .ok s5Pending ∧
    (addTransaction s5Pending txP).map getPendingTransactionCount = .ok 1 := by
  have h := claim7_duplicate_addTransaction_noop s5Pending txP (by decide) (by decide)
  exact ⟨by decide, by decide, h.1, by rw [h.1]; rfl⟩

/-- C9: the transaction list a successful `createBatch` hands to the prover
is the drained prefix of the pending queue, sorted by descending
`gasPrice * gasLimit`, stably: it is descending-sorted, and every
fee-priority class equals the corresponding class of the drained prefix in
arrival order (which together characterise the stable descending sort). -/
theorem claim9_prover_input_sorted_stable (s : BatchProcessorState) (r : CreateBatchResult)
    (h : createBatch s = .ok r) :
    r.newState.pendingTransactions =
      s.pendingTransactions.drop (calculateOptimalBatchSize s) ∧
    List.Pairwise txGeKey r.proverInput ∧
    ∀ k : Nat, r.proverInput.filter (fun t => txSortKey t == k) =
      (s.pendingTransactions.take (calculateOptimalBatchSize s)).filter
        (fun t => txSortKey t == k) := by
  obtain ⟨hp, _, hn⟩ := createBatch_ok_elim s r h
  refine ⟨?_, ?_, ?_⟩
  · rw [hn]; rfl
  · rw [hp]; exact optimizeBatch_pairwise _
  · intro k; rw [hp]; exact optimizeBatch_filter k _

/-- Witness for C9: two pending transactions in ascending fee priority are
reordered, and the fee-priority classes match the drained prefix. -/
theorem claim9_witness :
    createBatch sC9 = .ok rC9 ∧
    List.Pairwise txGeKey rC9.proverInput ∧
    rC9.proverInput.filter (fun t => txSortKey t == txSortKey txLow) =
      (sC9.pendingTransactions.take (calculateOptimalBatchSize sC9)).filter
        (fun t => txSortKey t == txSortKey txLow) := by
  have hcb : createBatch sC9 = .ok rC9 := by
    simp only [createBatch, createBatchPhaseA, calculateOptimalBatchSize_eq, Except.map]
    decide
  exact ⟨hcb, (claim9_prover_input_sorted_stable sC9 rC9 hcb).2.1,
    (claim9_prover_input_sorted_stable sC9 rC9 hcb).2.2 _⟩

/-- C10: a prover failure inside `generateProof` (on a cache miss with no
in-flight entry) propagates the error, leaves the cache unchanged, leaves
no pending entry behind, and hence a subsequent call for the same batch
index invokes the prover again instead of replaying the failure. -/
theorem claim10_prover_failure_not_cached (txs : List Transaction) (i : Nat) (e : String)
    (s : ProofGeneratorState)
    (hc : mapGet? (generateCacheKey txs i) s.proofCache = none)
    (hp : mapGet? i s.pendingProofs = none) :
    generateProof (.error e) txs i s =
      { result := .error e, finalState := s, proverCalled := true } ∧
    ∀ prover2 : Except String ProofResult,
      (generateProof prover2 txs i s).proverCalled = true := by
  constructor
  · simp [generateProof, hc, hp]
  · intro prover2
    cases prover2 <;> simp [generateProof, hc, hp]

/-- Witness for C10: a failed call on a fresh generator, then a retry that
does reach the prover. -/
theorem claim10_witness :
    mapGet? (generateCacheKey [txP] 0) pg0.proofCache = none ∧
    mapGet? 0 pg0.pendingProofs = none ∧
    generateProof (.error "ProverError") [txP] 0 pg0 =
      { result := .error "ProverError", finalState := pg0, proverCalled := true } ∧
    (generateProof (.ok prGood) [txP] 0 pg0).proverCalled = true := by
  have h := claim10_prover_failure_not_cached [txP] 0 "ProverError" pg0 (by decide) (by decide)
  exact ⟨by decide, by decide, h.1, h.2 _⟩

/-- C1 counterexample: on the concrete aggregate `aggProofs`, whose root
chain is broken at its head (`"bad" ≠ "r0"`), `submitAggregatedStateUpdates`
does not fail with `InvalidTransition`: with an accepting ledger it returns
`true` and mutates the state history at both included indices, refuting the
claim. -/
theorem claim1_counterexample :
    rootChainOk "r0" aggProofs = false ∧
    (submitAggregatedStateUpdates "r0" true aggProofs srm0).result = .ok true ∧
    (submitAggregatedStateUpdates "r0" true aggProofs srm0).finalState.stateHistory =
      [(0, "r1"), (1, "r2")] ∧
    (submitAggregatedStateUpdates "r0" true aggProofs srm0).finalState.stateHistory ≠
      srm0.stateHistory := by
  decide

/-- C1 amended: `submitAggregatedStateUpdates` performs no root-chain
validation.  Even for a broken chain the settlement ledger is always
invoked; if it accepts, the call returns `true` and writes every included
proof's new root into the history, and only a ledger rejection (surfaced as
the ledger's own error, not `InvalidTransition`) leaves the history
unchanged. -/
theorem claim1_amended_no_chain_validation (currentRoot : String) (ledgerAccepts : Bool)
    (prs : List ProofResult) (s : StateRootManagerState)
    (hne : prs ≠ []) (hbroken : rootChainOk currentRoot prs = false) :
    (submitAggregatedStateUpdates currentRoot ledgerAccepts prs s).ledgerCalled = true ∧
    (ledgerAccepts = true →
      submitAggregatedStateUpdates currentRoot ledgerAccepts prs s =
        { result := .ok true, finalState := applyAggregatedUpdates prs s,
          ledgerCalled := true }) ∧
    (ledgerAccepts = false →
      submitAggregatedStateUpdates currentRoot ledgerAccepts prs s =
        { result := .error "SettlementError", finalState := s, ledgerCalled := true }) := by
  cases prs with
  | nil => exact absurd rfl hne
  | cons p rest => cases ledgerAccepts <;> simp [submitAggregatedStateUpdates]

/-- Witness for the amended C1 at the concrete broken aggregate. -/
theorem claim1_amended_witness :
    aggProofs ≠ [] ∧ rootChainOk "r0" aggProofs = false ∧
    (submitAggregatedStateUpdates "r0" true aggProofs srm0).ledgerCalled = true ∧
    submitAggregatedStateUpdates "r0" true aggProofs srm0 =
      { result := .ok true, finalState := applyAggregatedUpdates aggProofs srm0,
        ledgerCalled := true } := by
  have h := claim1_amended_no_chain_validation "r0" true aggProofs srm0 (by decide) (by decide)
  exact ⟨by decide, by decide, h.1, h.2.1 rfl⟩

/-- C2: evaluation of the code's interleaving bug.  Starting from `sC2`
(`maxTransactions = 1`, two pending transactions, ledger-reported index 0),
two `createBatch` calls launched back to back — as
`processPendingTransactions` launches them before awaiting — each read
batch index 0 before either increment runs, so both batches are generated
for index 0 while the counter ends at 2: index 0 is reused and index 1 is
never assigned, contradicting the claimed strictly increasing, gap-free,
never-reused assignment. -/
theorem claim2_duplicate_index_eval :
    (concurrentCreateBatch2 sC2).map
        (fun p => (p.1.assignedIndex, p.2.assignedIndex, p.2.newState.batchIndex)) =
      .ok (0, 0, 2) ∧
    (concurrentCreateBatch2 sC2).map (fun p => (p.1.proverInput, p.2.proverInput)) =
      .ok ([txP], [txQ]) := by
  constructor <;>
    · simp only [concurrentCreateBatch2, createBatchPhaseA, createBatchPhaseB,
        calculateOptimalBatchSize_eq, Except.map, bind, Except.bind, pure, Except.pure]
      decide

/-- C3 counterexample: with a cycle in flight (`sBusy.processing = true`),
the timer tick is skipped, but `forceBatch` — claimed to obey the same
single-flight guard — still runs a full `createBatch` cycle, draining the
pool, refuting the claim. -/
theorem claim3_counterexample :
    sBusy.processing = true ∧
    processBatchTick sBusy = ([], sBusy) ∧
    forceBatch sBusy =
      .ok { proverInput := [txP], assignedIndex := 0, newState := sBusyDrained } := by
  refine ⟨rfl, by decide, ?_⟩
  simp only [forceBatch, createBatch, createBatchPhaseA, calculateOptimalBatchSize_eq,
    Except.map]
  decide

/-- C3 amended: a timer tick (`processBatch`) that fires while a cycle is
running is skipped entirely with no state change, but `forceBatch` neither
consults nor sets the single-flight guard: invoked with a non-empty pool
while a cycle is in flight, it is exactly a `createBatch` run and drains
the pool, starting a second concurrent cycle. -/
theorem claim3_amended_guard (s : BatchProcessorState) (h : s.processing = true) :
    processBatchTick s = ([], s) ∧
    (s.pendingTransactions.length ≠ 0 →
      forceBatch s = createBatch s ∧
      (forceBatch s).map (fun r => r.newState.pendingTransactions) =
        .ok (s.pendingTransactions.drop (calculateOptimalBatchSize s))) := by
  constructor
  · rw [processBatchTick]
    by_cases h0 : getPendingTransactionCount s = 0
    · rw [if_pos h0]
    · rw [if_neg h0, if_pos h]
  · intro hne
    have h0 : ¬(getPendingTransactionCount s = 0) := by
      simpa [getPendingTransactionCount] using hne
    have hfb : forceBatch s = createBatch s := by rw [forceBatch, if_neg h0]
    refine ⟨hfb, ?_⟩
    rw [hfb]
    cases hcb : createBatch s with
    | error e =>
      rw [createBatch, createBatchPhaseA] at hcb
      rw [if_neg hne] at hcb
      exact absurd hcb (by simp [Except.map])
    | ok r =>
      obtain ⟨_, _, hn⟩ := createBatch_ok_elim s r hcb
      rw [Except.map, hn]
      rfl

/-- Witness for the amended C3 at the concrete in-flight state `sBusy`. -/
theorem claim3_amended_witness :
    sBusy.processing = true ∧ sBusy.pendingTransactions.length ≠ 0 ∧
    processBatchTick sBusy = ([], sBusy) ∧
    forceBatch sBusy = createBatch sBusy ∧
    (forceBatch sBusy).map (fun r => r.newState.pendingTransactions) =
      .ok (sBusy.pendingTransactions.drop (calculateOptimalBatchSize sBusy)) := by
  have h := claim3_amended_guard sBusy rfl
  have h2 := h.2 (by decide)
  exact ⟨rfl, by decide, h.1, h2.1, h2.2⟩

/-- C5 counterexample: after `createBatch` drains `txP`, its digest is
still in the dedup set (it is not removed, refuting the claim), and a later
`addTransaction` of the identical transaction is silently dropped as a
duplicate — the pending count stays 0 — instead of being accepted. -/
theorem claim5_counterexample :
    addTransaction sEmpty0 txP = .ok s5Pending ∧
    createBatch s5Pending = .ok r5 ∧
    r5.newState.transactionHashes = [generateTransactionHash txP] ∧
    getPendingTransactionCount r5.newState = 0 ∧
    addTransaction r5.newState txP = .ok r5.newState := by
  refine ⟨by decide, ?_, by decide, by decide, by decide⟩
  simp only [createBatch, createBatchPhaseA, calculateOptimalBatchSize_eq, Except.map]
  decide

/-- C5 amended: `createBatch` leaves the digest set untouched when it
drains transactions — only `clearPendingTransactions` empties it — so a
transaction identical to an already-drained one is silently dropped by a
later `addTransaction` as a duplicate rather than accepted. -/
theorem claim5_amended_digests_retained (s : BatchProcessorState) (r : CreateBatchResult)
    (h : createBatch s = .ok r) :
    r.newState.transactionHashes = s.transactionHashes ∧
    (clearPendingTransactions s).transactionHashes = [] ∧
    ∀ tx : Transaction, validateTransaction s.config tx = .ok () →
      generateTransactionHash tx ∈ s.transactionHashes →
      addTransaction r.newState tx = .ok r.newState := by
  obtain ⟨_, _, hn⟩ := createBatch_ok_elim s r h
  have hh : r.newState.transactionHashes = s.transactionHashes := by rw [hn]; rfl
  have hcfg : r.newState.config = s.config := by rw [hn]; rfl
  refine ⟨hh, rfl, ?_⟩
  intro tx hval hmem
  exact addTransaction_dup_eq r.newState tx (by rw [hcfg]; exact hval)
    (by rw [hh]; exact hmem)

/-- Witness for the amended C5 on the concrete drain of `txP`. -/
theorem claim5_amended_witness :
    createBatch s5Pending = .ok r5 ∧
    r5.newState.transactionHashes = s5Pending.transactionHashes ∧
    (clearPendingTransactions s5Pending).transactionHashes = [] ∧
    addTransaction r5.newState txP = .ok r5.newState := by
  have hcb : createBatch s5Pending = .ok r5 := by
    simp only [createBatch, createBatchPhaseA, calculateOptimalBatchSize_eq, Except.map]
    decide
  have h := claim5_amended_digests_retained s5Pending r5 hcb
  exact ⟨hcb, h.1, h.2.1, h.2.2 txP (by decide) (by decide)⟩

/-- C6 counterexample: `txPBigGas` differs from `txP` only in `gasLimit`,
yet after a completed `generateProof` for `[txP]` at index 0, the call for
`[txPBigGas]` at index 0 is served `[txP]`'s cached proof (`prGood`)
without invoking the prover that stood ready to produce `prAlt`, refuting
"never served the other set's cached proof". -/
theorem claim6_counterexample :
    txP ≠ txPBigGas ∧
    generateProof (.ok prGood) [txP] 0 pg0 =
      { result := .ok prGood, finalState := pgCached, proverCalled := true } ∧
    generateProof (.ok prAlt) [txPBigGas] 0 pgCached =
      { result := .ok prGood, finalState := pgCached, proverCalled := false } := by
  decide

/-- C6 amended: the proof cache is keyed by the batch index together with
the digest of each transaction's `from`, `to`, `value` and `nonce` only; a
call whose key is cached is served the cached proof without invoking the
prover — including a call whose transaction set differs from the cached
one only in `data`, `gasLimit` or `gasPrice`, since those fields do not
enter the key. -/
theorem claim6_amended_cache_key_hit (prover : Except String ProofResult)
    (txs : List Transaction) (i : Nat) (s : ProofGeneratorState) (p : ProofResult)
    (h : mapGet? (generateCacheKey txs i) s.proofCache = some p) :
    generateProof prover txs i s =
      { result := .ok p, finalState := s, proverCalled := false } := by
  simp [generateProof, h]

/-- Witness for the amended C6: the differing-only-in-`gasLimit` set shares
the cache key and is served the cached proof. -/
theorem claim6_amended_witness :
    mapGet? (generateCacheKey [txPBigGas] 0) pgCached.proofCache = some prGood ∧
    generateProof (.ok prAlt) [txPBigGas] 0 pgCached =
      { result := .ok prGood, finalState := pgCached, proverCalled := false } := by
  have h : mapGet? (generateCacheKey [txPBigGas] 0) pgCached.proofCache = some prGood := by
    decide
  exact ⟨h, claim6_amended_cache_key_hit (.ok prAlt) [txPBigGas] 0 pgCached prGood h⟩

end MiniZkRollup
